import Mathlib

/-!
# Verification of the trading-app core against its specification

Shallow embedding of the event-driven trading core of the repository
(`src/core/event_bus.py`, `src/core/state_machine.py`, `src/core/app.py`,
`src/exchange/rate_limiter.py`, `src/exchange/ccxt_connector.py`,
`src/exchange/order_validator.py`, `src/trading/trade_executor.py`).

Python `Decimal` values are modelled as `ℚ` (all arithmetic performed by the
code on these magnitudes is exact in `Decimal`'s default 28-digit context).
`Decimal.quantize(q, rounding)` rounds its receiver to the decimal exponent of
`q`; the exchange publishes tick/step sizes of the form `10^e`, for which this
coincides with rounding to an integer multiple of the tick/step, which is how
we model it.  Wall-clock timestamps (`datetime.now`) carried by events and
state objects are irrelevant to every property below and are omitted from the
embedded records.  Async effects (network calls, sleeps, bus publications) are
made explicit as effect traces; injected failures are supplied by environment
records holding the outcome of each exchange call.
-/

namespace TradingApp

/-- `EventType` enum from `src/models/events.py`. -/
inductive EventType
  | appStarted | appStopped
  | exchangeConnected | exchangeDisconnected | exchangeReconnected
  | candleClosed
  | strategyConditionMet | strategySignalLong | strategySignalShort | strategyTimeout
  | tradeOpened | tradeFailed | tradeTpHit | tradeSlHit | tradeClosed
  | errorRecoverable | errorCritical
  deriving DecidableEq, Repr

/-- `OrderSide` enum from `src/models/exchange.py`. -/
inductive OrderSide
  | buy | sell
  deriving DecidableEq, Repr

/-- `OrderType` enum from `src/models/exchange.py`. -/
inductive OrderType
  | market | limit | stopLoss | takeProfit
  deriving DecidableEq, Repr

/-- `OrderStatus` enum from `src/models/exchange.py`. -/
inductive OrderStatus
  | pending | filled | cancelled | failed
  deriving DecidableEq, Repr

/-- `TradeDirection` enum from `src/models/trade.py`. -/
inductive TradeDirection
  | long | short
  deriving DecidableEq, Repr

/-- `TradeStatus` enum from `src/models/trade.py`. -/
inductive TradeStatus
  | open | closed | failed
  deriving DecidableEq, Repr

/-- `MarketRules` from `src/models/exchange.py`.  `step_size` and `tick_size`
are the exchange increments (positive powers of ten as delivered by ccxt's
`precision` fields, see `CcxtConnector.fetch_market_rules`). -/
structure MarketRules where
  step_size : ℚ
  tick_size : ℚ
  min_notional : ℚ
  max_leverage : ℕ
  deriving DecidableEq, Repr

/-- `OrderInfo` from `src/models/exchange.py` (timestamp omitted). -/
structure OrderInfo where
  id : String
  pair : String
  side : OrderSide
  order_type : OrderType
  price : Option ℚ := none
  quantity : ℚ
  status : OrderStatus
  deriving DecidableEq, Repr

/-- Rounding of `q` to the nearest integer with `decimal.ROUND_HALF_UP`
semantics (ties away from zero). -/
def roundHalfUpInt (q : ℚ) : ℤ :=
  if q < 0 then -⌊-q + 1/2⌋ else ⌊q + 1/2⌋

/-- Rounding of `q` toward zero with `decimal.ROUND_DOWN` semantics. -/
def roundDownInt (q : ℚ) : ℤ :=
  if q < 0 then -⌊-q⌋ else ⌊q⌋

namespace OrderValidator

/-- `OrderValidator.round_quantity` (`src/exchange/order_validator.py`):
`quantity.quantize(step_size, rounding=ROUND_DOWN)` — round down to a multiple
of the step size. -/
def round_quantity (rules : MarketRules) (quantity : ℚ) : ℚ :=
  roundDownInt (quantity / rules.step_size) * rules.step_size

/-- `OrderValidator.round_price` (`src/exchange/order_validator.py`):
`price.quantize(tick_size, rounding=ROUND_HALF_UP)` — round half-up to a
multiple of the tick size. -/
def round_price (rules : MarketRules) (price : ℚ) : ℚ :=
  roundHalfUpInt (price / rules.tick_size) * rules.tick_size

end OrderValidator

namespace TradeExecutor

/-- `TradeExecutor._calculate_tp_sl` (`src/trading/trade_executor.py`).
Returns `(real_tp_price, real_sl_price)` raw, before tick-size rounding;
raises `ValueError` when the signal stop distance is zero. -/
def calculate_tp_sl (direction : TradeDirection)
    (real_entry_price signal_price signal_sl_price risk_reward_ratio : ℚ) :
    Except String (ℚ × ℚ) :=
  let sl_distance := |signal_price - signal_sl_price|
  if sl_distance = 0 then
    .error "Distance SL invalide : signal_price == sl_price"
  else
    match direction with
    | .long =>
        .ok (real_entry_price + sl_distance * risk_reward_ratio,
             real_entry_price - sl_distance)
    | .short =>
        .ok (real_entry_price - sl_distance * risk_reward_ratio,
             real_entry_price + sl_distance)

end TradeExecutor

/-- Market rules used by the repository's executor test fixture
(`tests/trading/test_trade_executor.py`): step 0.001, tick 0.1. -/
def fixtureRules : MarketRules :=
  { step_size := 1/1000, tick_size := 1/10, min_notional := 10, max_leverage := 10 }

/-- **C2.** For every direction, fill price `e`, signal price `p`, signal stop
`s` with `p ≠ s` and nonnegative ratio `r`, `_calculate_tp_sl` succeeds and its
raw stop/target satisfy `|e − stop| = |p − s|` and `|e − target| = r·|p − s|`
(distances measured from the actual fill price); and in the concrete LONG
scenario `p = 50000`, `s = 49000`, `r = 2`, fill `e = 50200`, the stop is
`49200` and the target `52200` after tick-size rounding. -/
theorem C2_tp_sl_preserves_distances :
    (∀ (d : TradeDirection) (e p s r : ℚ), p ≠ s → 0 ≤ r →
      ∃ tp sl, TradeExecutor.calculate_tp_sl d e p s r = .ok (tp, sl) ∧
        |e - sl| = |p - s| ∧ |e - tp| = r * |p - s|) ∧
    (∃ tp sl,
      TradeExecutor.calculate_tp_sl .long 50200 50000 49000 2 = .ok (tp, sl) ∧
      OrderValidator.round_price fixtureRules sl = 49200 ∧
      OrderValidator.round_price fixtureRules tp = 52200) := by
  constructor
  · intro d e p s r hps hr
    have hne : |p - s| ≠ 0 := by
      simpa [abs_eq_zero, sub_eq_zero] using hps
    cases d
    · refine ⟨e + |p - s| * r, e - |p - s|, ?_, ?_, ?_⟩
      · simp [TradeExecutor.calculate_tp_sl, hne]
      · have h1 : e - (e - |p - s|) = |p - s| := by ring
        rw [h1, abs_of_nonneg (abs_nonneg _)]
      · have h1 : e - (e + |p - s| * r) = -(|p - s| * r) := by ring
        rw [h1, abs_neg, abs_mul, abs_abs, abs_of_nonneg hr]
        ring
    · refine ⟨e - |p - s| * r, e + |p - s|, ?_, ?_, ?_⟩
      · simp [TradeExecutor.calculate_tp_sl, hne]
      · have h1 : e - (e + |p - s|) = -|p - s| := by ring
        rw [h1, abs_neg, abs_of_nonneg (abs_nonneg _)]
      · have h1 : e - (e - |p - s| * r) = |p - s| * r := by ring
        rw [h1, abs_mul, abs_abs, abs_of_nonneg hr]
        ring
  · refine ⟨52200, 49200, ?_, ?_, ?_⟩
    · norm_num [TradeExecutor.calculate_tp_sl]
    · norm_num [OrderValidator.round_price, fixtureRules, roundHalfUpInt]
    · norm_num [OrderValidator.round_price, fixtureRules, roundHalfUpInt]

/-- Witness for `C2_tp_sl_preserves_distances`: the universally quantified part
applied at the concrete LONG scenario of the spec. -/
theorem C2_tp_sl_preserves_distances_witness :
    ∃ tp sl, TradeExecutor.calculate_tp_sl .long 50200 50000 49000 2 = .ok (tp, sl) ∧
      |(50200 : ℚ) - sl| = |(50000 : ℚ) - 49000| ∧
      |(50200 : ℚ) - tp| = 2 * |(50000 : ℚ) - 49000| :=
  C2_tp_sl_preserves_distances.1 .long 50200 50000 49000 2 (by simp) (by simp)

/-! ## Strategy state machine (`src/core/state_machine.py`) -/

/-- `StrategyStateEnum` from `src/models/state.py`. -/
inductive StrategyStateEnum
  | IDLE | WATCHING | SIGNAL_READY | IN_TRADE
  deriving DecidableEq, Repr

/-- The `.value` string of each `StrategyStateEnum` member. -/
def StrategyStateEnum.value : StrategyStateEnum → String
  | .IDLE => "IDLE"
  | .WATCHING => "WATCHING"
  | .SIGNAL_READY => "SIGNAL_READY"
  | .IN_TRADE => "IN_TRADE"

/-- The mutable fields of `StateMachine` (`src/core/state_machine.py`).
`_last_transition_at` (a wall-clock timestamp) is omitted; no claim concerns
it.  The event bus is modelled by returning the emitted events. -/
structure StateMachine where
  strategy_name : String
  pair : String
  state : StrategyStateEnum
  conditions_met : List ℤ
  last_condition_candle : Option ℤ
  current_trade_id : Option String
  deriving DecidableEq, Repr

/-- `StateMachine.__init__`: starts in IDLE with all tracking fields clear. -/
def StateMachine.init (strategy_name pair : String) : StateMachine :=
  { strategy_name := strategy_name
    pair := pair
    state := .IDLE
    conditions_met := []
    last_condition_candle := none
    current_trade_id := none }

/-- The exceptions `StateMachine` raises (`TradingAppError`, from
`_validate_transition` and the direction check of `on_all_conditions_met`).
The Python message is a pure function of these fields, see `SMError.message`. -/
inductive SMError
  | invalidTransition (method : String) (fromState : StrategyStateEnum)
      (allowed : List StrategyStateEnum)
  | invalidDirection (direction : String)
  deriving DecidableEq, Repr

/-- The message text of a raised `TradingAppError` (accents and quote marks of
the French source text elided; the structure of the interpolation is kept). -/
def SMError.message : SMError → String
  | .invalidTransition method fromState allowed =>
      "Transition invalide : " ++ method ++ " appele depuis " ++ fromState.value ++
        " (autorise depuis : " ++
        String.intercalate ", " (allowed.map StrategyStateEnum.value) ++ ")"
  | .invalidDirection direction =>
      "Direction invalide : " ++ direction ++ " (autorise : long ou short)"

/-- A strategy event published on the bus (payload fields of `StrategyEvent`
relevant to the state machine; timestamp omitted). -/
structure StrategyEventOut where
  event_type : EventType
  strategy_name : String
  pair : String
  condition_index : Option ℤ := none
  details : String
  deriving DecidableEq, Repr

/-- Outcome of one transition-method call: either the updated machine plus the
events it emitted, or a raised error together with the machine as it stands
when the exception escapes (every raise in the source precedes any field
mutation). -/
inductive SMResult
  | ok (machine : StateMachine) (emitted : List StrategyEventOut)
  | err (error : SMError) (machine : StateMachine)
  deriving DecidableEq, Repr

/-- `StateMachine._validate_transition`. -/
def StateMachine.validate_transition (m : StateMachine) (method_name : String)
    (allowed_states : List StrategyStateEnum) : Option SMError :=
  if m.state ∈ allowed_states then none
  else some (.invalidTransition method_name m.state allowed_states)

/-- `StateMachine._reset_conditions`. -/
def StateMachine.reset_conditions (m : StateMachine) : StateMachine :=
  { m with conditions_met := [], last_condition_candle := none, current_trade_id := none }

/-- `StateMachine.on_condition_met`: IDLE/WATCHING → WATCHING; duplicate
condition index is a no-op; candle index updated only when supplied. -/
def StateMachine.on_condition_met (m : StateMachine) (condition_index : ℤ)
    (candle_index : Option ℤ := none) : SMResult :=
  match m.validate_transition "on_condition_met" [.IDLE, .WATCHING] with
  | some e => .err e m
  | none =>
    if condition_index ∈ m.conditions_met then
      .ok m []
    else
      let m2 : StateMachine :=
        { m with
          state := .WATCHING
          conditions_met := m.conditions_met ++ [condition_index]
          last_condition_candle :=
            match candle_index with
            | some c => some c
            | none => m.last_condition_candle }
      .ok m2 [{ event_type := .strategyConditionMet
                strategy_name := m.strategy_name
                pair := m.pair
                condition_index := some condition_index
                details := "condition_" ++ toString condition_index ++ "_met" }]

/-- `StateMachine.on_all_conditions_met`: WATCHING → SIGNAL_READY; the
direction must be "long" or "short" after lower-casing, else raises. -/
def StateMachine.on_all_conditions_met (m : StateMachine) (direction : String := "long") :
    SMResult :=
  match m.validate_transition "on_all_conditions_met" [.WATCHING] with
  | some e => .err e m
  | none =>
    let direction_lower := direction.toLower
    if direction_lower ≠ "long" ∧ direction_lower ≠ "short" then
      .err (.invalidDirection direction) m
    else
      let event_type :=
        if direction_lower = "long" then EventType.strategySignalLong
        else EventType.strategySignalShort
      .ok { m with state := .SIGNAL_READY }
        [{ event_type := event_type
           strategy_name := m.strategy_name
           pair := m.pair
           details := "signal_" ++ direction }]

/-- `StateMachine.on_trade_opened`: SIGNAL_READY → IN_TRADE, records the id. -/
def StateMachine.on_trade_opened (m : StateMachine) (trade_id : String) : SMResult :=
  match m.validate_transition "on_trade_opened" [.SIGNAL_READY] with
  | some e => .err e m
  | none => .ok { m with state := .IN_TRADE, current_trade_id := some trade_id } []

/-- `StateMachine.on_trade_closed`: IN_TRADE → IDLE, resets the tracking. -/
def StateMachine.on_trade_closed (m : StateMachine) : SMResult :=
  match m.validate_transition "on_trade_closed" [.IN_TRADE] with
  | some e => .err e m
  | none => .ok (StateMachine.reset_conditions { m with state := .IDLE }) []

/-- `StateMachine.on_timeout`: WATCHING → IDLE, resets the tracking. -/
def StateMachine.on_timeout (m : StateMachine) : SMResult :=
  match m.validate_transition "on_timeout" [.WATCHING] with
  | some e => .err e m
  | none =>
    .ok (StateMachine.reset_conditions { m with state := .IDLE })
      [{ event_type := .strategyTimeout
         strategy_name := m.strategy_name
         pair := m.pair
         details := "timeout_entre_conditions" }]

/-- **C6.** Every transition method called from a state outside its allowed set
raises an invalid-transition error carrying (and whose message text names) the
current state and the allowed set, and leaves the machine — state, satisfied
condition indices, last-condition candle index, current trade id — unchanged
(the error result returns the machine exactly as passed in); the same holds
for `on_all_conditions_met` called from WATCHING with a direction that is
neither "long" nor "short" (after the source's lower-casing). -/
theorem C6_invalid_transitions_raise_and_preserve_state :
    (∀ (m : StateMachine) (i : ℤ) (c : Option ℤ),
        m.state ∉ ([.IDLE, .WATCHING] : List StrategyStateEnum) →
        m.on_condition_met i c =
          .err (.invalidTransition "on_condition_met" m.state [.IDLE, .WATCHING]) m) ∧
    (∀ (m : StateMachine) (dir : String),
        m.state ∉ ([.WATCHING] : List StrategyStateEnum) →
        m.on_all_conditions_met dir =
          .err (.invalidTransition "on_all_conditions_met" m.state [.WATCHING]) m) ∧
    (∀ (m : StateMachine) (tid : String),
        m.state ∉ ([.SIGNAL_READY] : List StrategyStateEnum) →
        m.on_trade_opened tid =
          .err (.invalidTransition "on_trade_opened" m.state [.SIGNAL_READY]) m) ∧
    (∀ (m : StateMachine),
        m.state ∉ ([.IN_TRADE] : List StrategyStateEnum) →
        m.on_trade_closed =
          .err (.invalidTransition "on_trade_closed" m.state [.IN_TRADE]) m) ∧
    (∀ (m : StateMachine),
        m.state ∉ ([.WATCHING] : List StrategyStateEnum) →
        m.on_timeout = .err (.invalidTransition "on_timeout" m.state [.WATCHING]) m) ∧
    (∀ (m : StateMachine) (dir : String),
        m.state = .WATCHING → dir.toLower ≠ "long" → dir.toLower ≠ "short" →
        m.on_all_conditions_met dir = .err (.invalidDirection dir) m) ∧
    (∀ (method : String) (st : StrategyStateEnum) (allowed : List StrategyStateEnum),
        ∃ u v w, (SMError.invalidTransition method st allowed).message =
          u ++ st.value ++ v ++
            String.intercalate ", " (allowed.map StrategyStateEnum.value) ++ w) := by
  refine ⟨?_, ?_, ?_, ?_, ?_, ?_, ?_⟩
  · intro m i c h
    simp only [List.mem_cons, List.mem_singleton, not_or] at h
    simp [StateMachine.on_condition_met, StateMachine.validate_transition, h]
  · intro m dir h
    simp only [List.mem_cons, List.mem_singleton, not_or] at h
    simp [StateMachine.on_all_conditions_met, StateMachine.validate_transition, h]
  · intro m tid h
    simp only [List.mem_cons, List.mem_singleton, not_or] at h
    simp [StateMachine.on_trade_opened, StateMachine.validate_transition, h]
  · intro m h
    simp only [List.mem_cons, List.mem_singleton, not_or] at h
    simp [StateMachine.on_trade_closed, StateMachine.validate_transition, h]
  · intro m h
    simp only [List.mem_cons, List.mem_singleton, not_or] at h
    simp [StateMachine.on_timeout, StateMachine.validate_transition, h]
  · intro m dir h1 h2 h3
    simp [StateMachine.on_all_conditions_met, StateMachine.validate_transition, h1, h2, h3]
  · intro method st allowed
    exact ⟨"Transition invalide : " ++ method ++ " appele depuis ",
      " (autorise depuis : ", ")", rfl⟩

/-- Witness for `C6_invalid_transitions_raise_and_preserve_state`: calling
`on_trade_opened` on a machine in IN_TRADE is rejected and the machine is
returned unchanged. -/
theorem C6_invalid_transitions_raise_and_preserve_state_witness :
    StateMachine.on_trade_opened
        { strategy_name := "s", pair := "BTC/USDT", state := .IN_TRADE,
          conditions_met := [0], last_condition_candle := some 3,
          current_trade_id := some "t1" } "t2" =
      .err (.invalidTransition "on_trade_opened" .IN_TRADE [.SIGNAL_READY])
        { strategy_name := "s", pair := "BTC/USDT", state := .IN_TRADE,
          conditions_met := [0], last_condition_candle := some 3,
          current_trade_id := some "t1" } :=
  C6_invalid_transitions_raise_and_preserve_state.2.2.1 _ "t2" (by decide)

/-- One transition-method call, as data (used to quantify over call
sequences). -/
inductive SMCall
  | conditionMet (condition_index : ℤ) (candle_index : Option ℤ)
  | allConditionsMet (direction : String)
  | tradeOpened (trade_id : String)
  | tradeClosed
  | timeout
  deriving DecidableEq, Repr

/-- Dispatch one call to the corresponding transition method. -/
def StateMachine.applyCall (m : StateMachine) : SMCall → SMResult
  | .conditionMet i c => m.on_condition_met i c
  | .allConditionsMet d => m.on_all_conditions_met d
  | .tradeOpened tid => m.on_trade_opened tid
  | .tradeClosed => m.on_trade_closed
  | .timeout => m.on_timeout

/-- The machine after one call: the updated machine on success, the unchanged
machine when the call raised. -/
def StateMachine.stepCall (m : StateMachine) (c : SMCall) : StateMachine :=
  match m.applyCall c with
  | .ok m2 _ => m2
  | .err _ m2 => m2

/-- The C10 invariant: a machine in IDLE has no satisfied-condition indices,
no last-condition candle index and no current trade id. -/
def idleClean (m : StateMachine) : Prop :=
  m.state = .IDLE →
    m.conditions_met = [] ∧ m.last_condition_candle = none ∧ m.current_trade_id = none

theorem stepCall_preserves_idleClean (m : StateMachine) (c : SMCall)
    (hm : idleClean m) : idleClean (m.stepCall c) := by
  cases c
  case conditionMet i ci =>
    unfold StateMachine.stepCall StateMachine.applyCall
    unfold StateMachine.on_condition_met StateMachine.validate_transition
    by_cases hmem : m.state ∈ ([.IDLE, .WATCHING] : List StrategyStateEnum)
    · simp only [List.mem_cons, List.mem_singleton, List.not_mem_nil, or_false] at hmem
      by_cases hdup : i ∈ m.conditions_met
      · rcases hmem with h | h <;> simpa [h, hdup] using hm
      · rcases hmem with h | h <;> simp [h, hdup, idleClean]
    · simp only [List.mem_cons, List.mem_singleton, List.not_mem_nil, or_false,
        not_or] at hmem
      simpa [hmem] using hm
  case allConditionsMet d =>
    unfold StateMachine.stepCall StateMachine.applyCall
    unfold StateMachine.on_all_conditions_met StateMachine.validate_transition
    by_cases hmem : m.state ∈ ([.WATCHING] : List StrategyStateEnum)
    · simp only [List.mem_singleton] at hmem
      by_cases hdir : d.toLower ≠ "long" ∧ d.toLower ≠ "short"
      · simpa [hmem, hdir] using hm
      · simp [hmem, hdir, idleClean]
    · simp only [List.mem_singleton] at hmem
      simpa [hmem] using hm
  case tradeOpened tid =>
    unfold StateMachine.stepCall StateMachine.applyCall
    unfold StateMachine.on_trade_opened StateMachine.validate_transition
    by_cases hmem : m.state ∈ ([.SIGNAL_READY] : List StrategyStateEnum)
    · simp only [List.mem_singleton] at hmem
      simp [hmem, idleClean]
    · simp only [List.mem_singleton] at hmem
      simpa [hmem] using hm
  case tradeClosed =>
    unfold StateMachine.stepCall StateMachine.applyCall
    unfold StateMachine.on_trade_closed StateMachine.validate_transition
    by_cases hmem : m.state ∈ ([.IN_TRADE] : List StrategyStateEnum)
    · simp only [List.mem_singleton] at hmem
      simp [hmem, idleClean, StateMachine.reset_conditions]
    · simp only [List.mem_singleton] at hmem
      simpa [hmem] using hm
  case timeout =>
    unfold StateMachine.stepCall StateMachine.applyCall
    unfold StateMachine.on_timeout StateMachine.validate_transition
    by_cases hmem : m.state ∈ ([.WATCHING] : List StrategyStateEnum)
    · simp only [List.mem_singleton] at hmem
      simp [hmem, idleClean, StateMachine.reset_conditions]
    · simp only [List.mem_singleton] at hmem
      simpa [hmem] using hm

/-- **C10.** Every machine reachable from the initial machine by any sequence
of transition calls (rejected calls leave the machine unchanged, so this
covers every sequence of successful calls) satisfies: whenever the state is
IDLE, the satisfied-condition list is empty and the last-condition candle
index and current trade id are `none`; moreover every successful
`on_trade_closed` or `on_timeout` (the transitions entering IDLE) directly
re-establishes exactly this. -/
theorem C10_idle_state_has_clean_tracking :
    (∀ (name pair : String) (calls : List SMCall),
        idleClean (calls.foldl StateMachine.stepCall (StateMachine.init name pair))) ∧
    (∀ (m m2 : StateMachine) (ev : List StrategyEventOut),
        m.on_trade_closed = .ok m2 ev →
        m2.state = .IDLE ∧ m2.conditions_met = [] ∧
          m2.last_condition_candle = none ∧ m2.current_trade_id = none) ∧
    (∀ (m m2 : StateMachine) (ev : List StrategyEventOut),
        m.on_timeout = .ok m2 ev →
        m2.state = .IDLE ∧ m2.conditions_met = [] ∧
          m2.last_condition_candle = none ∧ m2.current_trade_id = none) := by
  refine ⟨?_, ?_, ?_⟩
  · intro name pair calls
    have hgen : ∀ (ms : List SMCall) (m : StateMachine), idleClean m →
        idleClean (ms.foldl StateMachine.stepCall m) := by
      intro ms
      induction ms with
      | nil => exact fun m hm => hm
      | cons c rest ih =>
          exact fun m hm => ih _ (stepCall_preserves_idleClean m c hm)
    exact hgen calls _ (by simp [idleClean, StateMachine.init])
  · intro m m2 ev h
    unfold StateMachine.on_trade_closed StateMachine.validate_transition at h
    by_cases hmem : m.state ∈ ([.IN_TRADE] : List StrategyStateEnum)
    · simp only [List.mem_singleton] at hmem
      simp [hmem, SMResult.ok.injEq] at h
      obtain ⟨h1, -⟩ := h
      subst h1
      simp [StateMachine.reset_conditions]
    · simp only [List.mem_singleton] at hmem
      simp [hmem] at h
  · intro m m2 ev h
    unfold StateMachine.on_timeout StateMachine.validate_transition at h
    by_cases hmem : m.state ∈ ([.WATCHING] : List StrategyStateEnum)
    · simp only [List.mem_singleton] at hmem
      simp [hmem, SMResult.ok.injEq] at h
      obtain ⟨h1, -⟩ := h
      subst h1
      simp [StateMachine.reset_conditions]
    · simp only [List.mem_singleton] at hmem
      simp [hmem] at h

/-- Witness for `C10_idle_state_has_clean_tracking`: after the call sequence
conditionMet(0, 5); timeout the machine is back in IDLE with clean
tracking fields. -/
theorem C10_idle_state_has_clean_tracking_witness :
    ([SMCall.conditionMet 0 (some 5), SMCall.timeout].foldl StateMachine.stepCall
        (StateMachine.init "s" "BTC/USDT")).conditions_met = [] ∧
    ([SMCall.conditionMet 0 (some 5), SMCall.timeout].foldl StateMachine.stepCall
        (StateMachine.init "s" "BTC/USDT")).last_condition_candle = none ∧
    ([SMCall.conditionMet 0 (some 5), SMCall.timeout].foldl StateMachine.stepCall
        (StateMachine.init "s" "BTC/USDT")).current_trade_id = none :=
  C10_idle_state_has_clean_tracking.1 "s" "BTC/USDT"
    [SMCall.conditionMet 0 (some 5), SMCall.timeout] (by decide)

/-! ## Event bus (`src/core/event_bus.py`)

`EventBus.emit` runs the registered handlers of an event in order; a handler
exception is caught and, unless the `_emitting_error` re-entrancy flag is set,
converted into one `error.recoverable` event re-published through the same
bus (with the flag set during that synthetic emission and reset after).
Handlers are modelled as lists of commands; `emit` is given fuel because a
handler may publish arbitrary further events. -/

/-- Payload of an `ErrorEvent` (`src/models/events.py`, timestamp omitted). -/
structure ErrorEventOut where
  error_type : String
  message : String
  traceback : Option String := none
  deriving DecidableEq, Repr

/-- Observable history: each `emit(event_type, payload)` call on the bus is a
`publish` entry (with the `ErrorEvent` payload when there is one); `log`
records an observable action a handler body performs. -/
inductive TraceEntry
  | publish (event_type : EventType) (payload : Option ErrorEventOut)
  | log (s : String)
  deriving DecidableEq, Repr

/-- One command of a handler body: an observable action, a nested `emit` on
the same bus, or a raised exception (which aborts the rest of the body). -/
inductive Cmd
  | log (s : String)
  | emitEvt (event_type : EventType)
  | throwErr (error_type message : String)
  deriving DecidableEq, Repr

/-- A handler body. -/
abbrev Handler := List Cmd

/-- The `_handlers` registry of the bus (snapshot; `emit` copies the list). -/
abbrev Registry := EventType → List Handler

/-- Model of `traceback.format_exc()` for the caught exception. -/
def tracebackOf (error_type message : String) : String :=
  "Traceback: " ++ error_type ++ ": " ++ message

mutual

/-- `EventBus.emit`: records the publication, then runs every handler
registered for the event type in registration order.  Returns the final
`_emitting_error` flag and the trace; `none` when the fuel runs out. -/
def emitBus (fuel : Nat) (R : Registry) (flag : Bool) (event_type : EventType)
    (payload : Option ErrorEventOut) : Option (Bool × List TraceEntry) :=
  match fuel with
  | 0 => none
  | f + 1 =>
    match runHandlers f R flag (R event_type) with
    | none => none
    | some (flag2, tr) => some (flag2, .publish event_type payload :: tr)
termination_by (fuel, 0, 0)

/-- The handler loop of `EventBus.emit`: on an exception, if the
`_emitting_error` flag is set the exception is swallowed (`continue`);
otherwise the flag is set, one `error.recoverable` event carrying the error
type, message and traceback is emitted through the same bus, and the flag is
reset (`finally`) before the remaining handlers run. -/
def runHandlers (fuel : Nat) (R : Registry) (flag : Bool) (hs : List Handler) :
    Option (Bool × List TraceEntry) :=
  match hs with
  | [] => some (flag, [])
  | h :: rest =>
    match runBody fuel R flag h with
    | none => none
    | some (flag1, tr1, exc) =>
      match exc with
      | none =>
        match runHandlers fuel R flag1 rest with
        | none => none
        | some (flag2, tr2) => some (flag2, tr1 ++ tr2)
      | some (ty, msg) =>
        if flag1 then
          match runHandlers fuel R flag1 rest with
          | none => none
          | some (flag2, tr2) => some (flag2, tr1 ++ tr2)
        else
          match emitBus fuel R true .errorRecoverable
              (some { error_type := ty, message := msg,
                      traceback := some (tracebackOf ty msg) }) with
          | none => none
          | some (_, trE) =>
            match runHandlers fuel R false rest with
            | none => none
            | some (flag2, tr2) => some (flag2, tr1 ++ trE ++ tr2)
termination_by (fuel, 2, hs.length)

/-- One handler body: commands run in order; a raise aborts the rest of the
body and is reported to the caller; a nested `emit` never raises (all handler
exceptions are caught inside it). -/
def runBody (fuel : Nat) (R : Registry) (flag : Bool) (cmds : List Cmd) :
    Option (Bool × List TraceEntry × Option (String × String)) :=
  match cmds with
  | [] => some (flag, [], none)
  | .log s :: rest =>
    match runBody fuel R flag rest with
    | none => none
    | some (flag1, tr, exc) => some (flag1, .log s :: tr, exc)
  | .throwErr ty msg :: _ => some (flag, [], some (ty, msg))
  | .emitEvt e :: rest =>
    match emitBus fuel R flag e none with
    | none => none
    | some (flag1, tr1) =>
      match runBody fuel R flag1 rest with
      | none => none
      | some (flag2, tr2, exc) => some (flag2, tr1 ++ tr2, exc)
termination_by (fuel, 1, cmds.length)

end

/-- A handler body that only performs observable actions (throws nothing,
publishes nothing). -/
def logsBody (ss : List String) : Handler := ss.map Cmd.log

/-- A handler body that performs observable actions and then optionally
raises. -/
def logsThrowBody : List String × Option (String × String) → Handler
  | (ss, none) => ss.map Cmd.log
  | (ss, some (ty, msg)) => ss.map Cmd.log ++ [Cmd.throwErr ty msg]

/-- The trace a logs-only body leaves. -/
def logsTrace (ss : List String) : List TraceEntry := ss.map TraceEntry.log

/-- The trace a list of logs-only handlers leaves. -/
def handlersLogsTrace (hs : List (List String)) : List TraceEntry :=
  (hs.map logsTrace).flatten

/-- The trace a list of logs-then-maybe-throw handlers leaves when every throw
is swallowed: only the log prefixes. -/
def errPrefixTrace (hs : List (List String × Option (String × String))) :
    List TraceEntry :=
  (hs.map fun s => logsTrace s.1).flatten

/-- Number of `error.recoverable` publications in a trace. -/
def countErrRecoverable : List TraceEntry → Nat
  | [] => 0
  | .publish .errorRecoverable _ :: rest => countErrRecoverable rest + 1
  | .publish _ _ :: rest => countErrRecoverable rest
  | .log _ :: rest => countErrRecoverable rest

theorem runBody_logsBody (fuel : Nat) (R : Registry) (flag : Bool) (ss : List String) :
    runBody fuel R flag (logsBody ss) = some (flag, logsTrace ss, none) := by
  induction ss with
  | nil => simp [logsBody, logsTrace, runBody]
  | cons s rest ih =>
    simp only [logsBody, logsTrace, List.map_cons] at ih ⊢
    simp [runBody, ih]

theorem runBody_logsThrow (fuel : Nat) (R : Registry) (flag : Bool)
    (ss : List String) (ty msg : String) :
    runBody fuel R flag (logsThrowBody (ss, some (ty, msg))) =
      some (flag, logsTrace ss, some (ty, msg)) := by
  induction ss with
  | nil => simp [logsThrowBody, logsTrace, runBody]
  | cons s rest ih =>
    simp only [logsThrowBody, logsTrace, List.map_cons, List.cons_append] at ih ⊢
    simp [runBody, ih]

theorem runHandlers_swallow (fuel : Nat) (R : Registry)
    (hs : List (List String × Option (String × String))) :
    runHandlers fuel R true (hs.map logsThrowBody) = some (true, errPrefixTrace hs) := by
  induction hs with
  | nil => simp [runHandlers, errPrefixTrace]
  | cons p rest ih =>
    obtain ⟨ss, exc⟩ := p
    cases exc with
    | none =>
      have hb : logsThrowBody (ss, none) = logsBody ss := by simp [logsThrowBody, logsBody]
      simp [runHandlers, hb, runBody_logsBody, ih, errPrefixTrace]
    | some tm =>
      obtain ⟨ty, msg⟩ := tm
      simp [runHandlers, runBody_logsThrow, ih, errPrefixTrace]

theorem runHandlers_logsBody_append (fuel : Nat) (R : Registry) (flag : Bool)
    (hs : List (List String)) (rest : List Handler) :
    runHandlers fuel R flag (hs.map logsBody ++ rest) =
      (runHandlers fuel R flag rest).map fun p => (p.1, handlersLogsTrace hs ++ p.2) := by
  induction hs with
  | nil =>
    cases hres : runHandlers fuel R flag rest with
    | none => simp [hres]
    | some p => simp [hres, handlersLogsTrace]
  | cons b hs ih =>
    cases hres : runHandlers fuel R flag rest with
    | none =>
      simp only [List.map_cons, List.cons_append]
      simp [runHandlers, runBody_logsBody, ih, hres]
    | some p =>
      obtain ⟨fl, tr⟩ := p
      simp only [List.map_cons, List.cons_append]
      simp [runHandlers, runBody_logsBody, ih, hres, handlersLogsTrace]

theorem runHandlers_logsBody (fuel : Nat) (R : Registry) (flag : Bool)
    (hs : List (List String)) :
    runHandlers fuel R flag (hs.map logsBody) = some (flag, handlersLogsTrace hs) := by
  have h := runHandlers_logsBody_append fuel R flag hs []
  simpa [runHandlers] using h

theorem countErrRecoverable_append (a b : List TraceEntry) :
    countErrRecoverable (a ++ b) = countErrRecoverable a + countErrRecoverable b := by
  induction a with
  | nil => simp [countErrRecoverable]
  | cons e rest ih =>
    cases e with
    | publish et p => cases et <;> (simp [countErrRecoverable, ih]; try omega)
    | log s => simp [countErrRecoverable, ih]

theorem countErrRecoverable_logsTrace (ss : List String) :
    countErrRecoverable (logsTrace ss) = 0 := by
  induction ss with
  | nil => simp [logsTrace, countErrRecoverable]
  | cons s rest ih =>
    simp only [logsTrace, List.map_cons] at ih ⊢
    simp [countErrRecoverable, ih]

theorem countErrRecoverable_handlersLogsTrace (hs : List (List String)) :
    countErrRecoverable (handlersLogsTrace hs) = 0 := by
  induction hs with
  | nil => simp [handlersLogsTrace, countErrRecoverable]
  | cons b hs ih =>
    simp only [handlersLogsTrace, List.map_cons, List.flatten] at ih ⊢
    simp [countErrRecoverable_append, countErrRecoverable_logsTrace, ih]

theorem countErrRecoverable_errPrefixTrace
    (hs : List (List String × Option (String × String))) :
    countErrRecoverable (errPrefixTrace hs) = 0 := by
  induction hs with
  | nil => simp [errPrefixTrace, countErrRecoverable]
  | cons b hs ih =>
    simp only [errPrefixTrace, List.map_cons, List.flatten] at ih ⊢
    simp [countErrRecoverable_append, countErrRecoverable_logsTrace, ih]

theorem countErrRecoverable_publish_ne {et : EventType} (p : Option ErrorEventOut)
    (r : List TraceEntry) (h : et ≠ .errorRecoverable) :
    countErrRecoverable (.publish et p :: r) = countErrRecoverable r := by
  cases et
  case errorRecoverable => exact absurd rfl h
  all_goals simp [countErrRecoverable]

/-- The registry of the C5 scenario: event `X` has some logs-only handlers,
then one handler publishing `Y`, then more logs-only handlers; `Y` has one
handler that logs then throws; `error.recoverable` has arbitrary handlers
that log and may themselves throw. -/
def c5Registry (X Y : EventType) (pre post : List (List String)) (yPre : List String)
    (ty msg : String) (errHs : List (List String × Option (String × String))) :
    Registry :=
  fun e =>
    if e = X then pre.map logsBody ++ [[Cmd.emitEvt Y]] ++ post.map logsBody
    else if e = Y then [logsThrowBody (yPre, some (ty, msg))]
    else if e = EventType.errorRecoverable then errHs.map logsThrowBody
    else []

/-- The `ErrorEvent` the bus synthesises for a caught exception. -/
def c5ErrorPayload (ty msg : String) : ErrorEventOut :=
  { error_type := ty, message := msg, traceback := some (tracebackOf ty msg) }

/-- The complete trace of the C5 scenario: publish of `X`, logs of the leading
handlers of `X`, publish of `Y`, logs of the throwing handler, exactly one
publish of `error.recoverable` (whose own handlers run with the re-entrancy
flag set: their throws are swallowed), then the logs of the remaining handlers
of `X`. -/
def c5Trace (X Y : EventType) (pre post : List (List String)) (yPre : List String)
    (ty msg : String) (errHs : List (List String × Option (String × String))) :
    List TraceEntry :=
  .publish X none ::
    (handlersLogsTrace pre ++
      ((.publish Y none ::
        (logsTrace yPre ++
          (.publish .errorRecoverable (some (c5ErrorPayload ty msg)) ::
            errPrefixTrace errHs))) ++
        handlersLogsTrace post))

/-- **C5.** For every emit of an event `X` one of whose handlers publishes an
event `Y` whose handler throws: the emit completes, exactly one
`error.recoverable` event is published through the same bus — carrying the
error type, the message and the traceback — the remaining handlers of `X`
still execute in registration order (their logs follow the error publication
in the trace), the re-entrancy flag ends reset, and handlers of the synthetic
error event that themselves throw are swallowed without any further error
event (the trace, given explicitly by `c5Trace`, has exactly one
`error.recoverable` publication even when `errHs` contains throwers). -/
theorem C5_handler_exception_isolated_to_one_error_event :
    ∀ (X Y : EventType) (pre post : List (List String)) (yPre : List String)
      (ty msg : String) (errHs : List (List String × Option (String × String)))
      (fuel : Nat),
      X ≠ Y → X ≠ .errorRecoverable → Y ≠ .errorRecoverable →
      emitBus (fuel + 3) (c5Registry X Y pre post yPre ty msg errHs) false X none =
          some (false, c5Trace X Y pre post yPre ty msg errHs) ∧
      countErrRecoverable (c5Trace X Y pre post yPre ty msg errHs) = 1 := by
  intro X Y pre post yPre ty msg errHs fuel hXY hXE hYE
  set R := c5Registry X Y pre post yPre ty msg errHs with hR
  have hRX : R X = pre.map logsBody ++ ([[Cmd.emitEvt Y]] ++ post.map logsBody) := by
    simp [hR, c5Registry, List.append_assoc]
  have hRY : R Y = [logsThrowBody (yPre, some (ty, msg))] := by
    simp [hR, c5Registry, Ne.symm hXY]
  have hRE : R .errorRecoverable = errHs.map logsThrowBody := by
    simp [hR, c5Registry, Ne.symm hXE, Ne.symm hYE]
  have hInner :
      emitBus (fuel + 2) R false Y none =
        some (false, .publish Y none ::
          (logsTrace yPre ++
            (.publish .errorRecoverable (some (c5ErrorPayload ty msg)) ::
              errPrefixTrace errHs))) := by
    show emitBus ((fuel + 1) + 1) R false Y none = _
    simp [emitBus, hRY, runHandlers, runBody_logsThrow, hRE, runHandlers_swallow,
      c5ErrorPayload]
  have hBody :
      runBody (fuel + 2) R false [Cmd.emitEvt Y] =
        some (false, .publish Y none ::
          (logsTrace yPre ++
            (.publish .errorRecoverable (some (c5ErrorPayload ty msg)) ::
              errPrefixTrace errHs)), none) := by
    simp [runBody, hInner]
  have hMiddle :
      runHandlers (fuel + 2) R false ([[Cmd.emitEvt Y]] ++ post.map logsBody) =
        some (false, (.publish Y none ::
          (logsTrace yPre ++
            (.publish .errorRecoverable (some (c5ErrorPayload ty msg)) ::
              errPrefixTrace errHs))) ++ handlersLogsTrace post) := by
    simp [runHandlers, hBody, runHandlers_logsBody]
  have hAll :
      runHandlers (fuel + 2) R false (R X) =
        some (false, handlersLogsTrace pre ++
          ((.publish Y none ::
            (logsTrace yPre ++
              (.publish .errorRecoverable (some (c5ErrorPayload ty msg)) ::
                errPrefixTrace errHs))) ++ handlersLogsTrace post)) := by
    rw [hRX, runHandlers_logsBody_append, hMiddle]
    rfl
  constructor
  · show emitBus ((fuel + 2) + 1) R false X none = _
    simp [emitBus, hAll, c5Trace]
  · simp only [c5Trace]
    rw [countErrRecoverable_publish_ne _ _ hXE, countErrRecoverable_append,
      countErrRecoverable_handlersLogsTrace,
      countErrRecoverable_append,
      countErrRecoverable_publish_ne _ _ hYE, countErrRecoverable_append,
      countErrRecoverable_logsTrace, countErrRecoverable_handlersLogsTrace]
    simp [countErrRecoverable, countErrRecoverable_errPrefixTrace]

/-- Witness for `C5_handler_exception_isolated_to_one_error_event`: the
concrete scenario where `candle.closed` handlers are one logger, the
`Y`-publisher and one more logger; the `strategy.timeout` handler throws; the
error handler itself throws (and is swallowed). -/
theorem C5_handler_exception_isolated_to_one_error_event_witness :
    emitBus 3 (c5Registry .candleClosed .strategyTimeout [["a"]] [["b"]] ["y"]
        "ValueError" "boom" [(["e"], some ("KeyError", "again"))]) false
        .candleClosed none =
      some (false, c5Trace .candleClosed .strategyTimeout [["a"]] [["b"]] ["y"]
        "ValueError" "boom" [(["e"], some ("KeyError", "again"))]) ∧
    countErrRecoverable (c5Trace .candleClosed .strategyTimeout [["a"]] [["b"]] ["y"]
        "ValueError" "boom" [(["e"], some ("KeyError", "again"))]) = 1 :=
  C5_handler_exception_isolated_to_one_error_event .candleClosed .strategyTimeout
    [["a"]] [["b"]] ["y"] "ValueError" "boom" [(["e"], some ("KeyError", "again"))] 0
    (by simp) (by simp) (by simp)

/-! ## Rate limiter (`src/exchange/rate_limiter.py`)

The waiting loop of `RateLimiter.acquire` (the slow path, entered after the
caller pushed its future onto the `_waiters` heap).  Whether the future has
been resolved by a token dispatch — possibly performed by another task while
this one sleeps — is supplied by an oracle `checks`, indexed by successive
`future.done()` calls.  The loop may run forever for CRITICAL callers, so it
is given fuel; running out of fuel reports `stillWaiting`. -/

/-- `OrderPriority` (`IntEnum`: low value = served first). -/
inductive OrderPriority
  | critical | high | normal
  deriving DecidableEq, Repr

/-- `RateLimitConfig` with the source's defaults. -/
structure RateLimitConfig where
  max_requests_per_second : ℕ := 10
  burst_size : ℕ := 5
  retry_delay : ℚ := 1
  max_retry_delay : ℚ := 30
  max_retries : ℕ := 10
  deriving DecidableEq, Repr

/-- `delay = min(retry_delay * 2 ** min(retry_count, 5), max_retry_delay)`. -/
def backoffDelay (cfg : RateLimitConfig) (retry_count : ℕ) : ℚ :=
  min (cfg.retry_delay * 2 ^ (min retry_count 5)) cfg.max_retry_delay

/-- How one run of the waiting loop ends. -/
inductive AcquireOutcome
  | granted
  | rateLimited (retries : ℕ)
  | stillWaiting (retries : ℕ)
  deriving DecidableEq, Repr

/-- Outcome, whether the waiter is still on the `_waiters` heap when the loop
ends (a granted or abandoned waiter has been removed), and the slept delays. -/
structure AcquireResult where
  outcome : AcquireOutcome
  inQueue : Bool
  sleeps : List ℚ
  deriving DecidableEq, Repr

/-- The `while not future.done()` loop of `RateLimiter.acquire`.  Per
iteration: check done (granted if so); compute the delay (a pending
`Retry-After` hint is consumed once, else exponential backoff); sleep; check
done again (break); refill and dispatch; increment the retry count; if still
not done and the priority is not CRITICAL and the retry count reached
`max_retries`, remove self from the queue and raise `RateLimitError`. -/
def acquireWait (cfg : RateLimitConfig) (priority : OrderPriority) (checks : ℕ → Bool) :
    (fuel k retry_count : ℕ) → (retry_after : Option ℚ) → AcquireResult
  | 0, _, rc, _ => ⟨.stillWaiting rc, true, []⟩
  | fuel + 1, k, rc, ra =>
    if checks k then ⟨.granted, false, []⟩
    else
      let delay :=
        match ra with
        | some d => d
        | none => backoffDelay cfg rc
      if checks (k + 1) then ⟨.granted, false, [delay]⟩
      else
        let rc2 := rc + 1
        if ¬ checks (k + 2) ∧ priority ≠ .critical ∧ cfg.max_retries ≤ rc2 then
          ⟨.rateLimited rc2, false, [delay]⟩
        else
          let rest := acquireWait cfg priority checks fuel (k + 3) rc2 none
          ⟨rest.outcome, rest.inQueue, delay :: rest.sleeps⟩

theorem acquireWait_nonCritical_exhausts (cfg : RateLimitConfig)
    (priority : OrderPriority) (checks : ℕ → Bool) (hpr : priority ≠ .critical) :
    ∀ (fuel k rc : ℕ) (ra : Option ℚ), (∀ i, checks i = false) →
      rc < cfg.max_retries → cfg.max_retries - rc ≤ fuel →
      (acquireWait cfg priority checks fuel k rc ra).outcome =
          .rateLimited cfg.max_retries ∧
        (acquireWait cfg priority checks fuel k rc ra).inQueue = false := by
  intro fuel
  induction fuel with
  | zero => intro k rc ra hc hrc hfuel; omega
  | succ f ih =>
    intro k rc ra hc hrc hfuel
    by_cases hle : cfg.max_retries ≤ rc + 1
    · have heq : rc + 1 = cfg.max_retries := by omega
      simp [acquireWait, hc, hpr, hle, heq]
    · have h1 := ih (k + 3) (rc + 1) none hc (by omega) (by omega)
      simp [acquireWait, hc, hle]
      exact h1

theorem acquireWait_critical_no_error (cfg : RateLimitConfig) (checks : ℕ → Bool) :
    ∀ (fuel k rc : ℕ) (ra : Option ℚ) (n : ℕ),
      (acquireWait cfg .critical checks fuel k rc ra).outcome ≠ .rateLimited n := by
  intro fuel
  induction fuel with
  | zero => intro k rc ra n; simp [acquireWait]
  | succ f ih =>
    intro k rc ra n
    by_cases h0 : checks k
    · simp [acquireWait, h0]
    · by_cases h1 : checks (k + 1)
      · simp [acquireWait, h0, h1]
      · simp [acquireWait, h0, h1]
        exact ih (k + 3) (rc + 1) none n

theorem acquireWait_critical_stays_queued (cfg : RateLimitConfig) (checks : ℕ → Bool) :
    ∀ (fuel k rc : ℕ) (ra : Option ℚ) (n : ℕ),
      (acquireWait cfg .critical checks fuel k rc ra).outcome = .stillWaiting n →
      (acquireWait cfg .critical checks fuel k rc ra).inQueue = true := by
  intro fuel
  induction fuel with
  | zero => intro k rc ra n _; simp [acquireWait]
  | succ f ih =>
    intro k rc ra n
    by_cases h0 : checks k
    · simp [acquireWait, h0]
    · by_cases h1 : checks (k + 1)
      · simp [acquireWait, h0, h1]
      · simp [acquireWait, h0, h1]
        exact ih (k + 3) (rc + 1) none n

theorem acquireWait_critical_retries_forever (cfg : RateLimitConfig) (checks : ℕ → Bool) :
    ∀ (fuel k rc : ℕ) (ra : Option ℚ), (∀ i, checks i = false) →
      (acquireWait cfg .critical checks fuel k rc ra).outcome =
        .stillWaiting (rc + fuel) := by
  intro fuel
  induction fuel with
  | zero => intro k rc ra _; simp [acquireWait]
  | succ f ih =>
    intro k rc ra hc
    have h1 := ih (k + 3) (rc + 1) none hc
    simp [acquireWait, hc]
    rw [h1]
    congr 1
    omega

/-- **C4.** In the waiter loop of `RateLimiter.acquire`: a NORMAL or HIGH
caller whose retry count reaches `max_retries` without the token being granted
is removed from the queue and fails with a rate-limit error (`rateLimited`,
with exactly `max_retries` retries, no longer enqueued); a CRITICAL caller
never raises a rate-limit error, is never removed from the queue while
ungranted, and with no grant forthcoming is still retrying after any number of
iterations. -/
theorem C4_rate_limiter_priorities :
    (∀ (cfg : RateLimitConfig) (priority : OrderPriority) (checks : ℕ → Bool)
        (fuel k : ℕ) (ra : Option ℚ),
      priority ≠ .critical → (∀ i, checks i = false) →
      1 ≤ cfg.max_retries → cfg.max_retries ≤ fuel →
      (acquireWait cfg priority checks fuel k 0 ra).outcome =
          .rateLimited cfg.max_retries ∧
        (acquireWait cfg priority checks fuel k 0 ra).inQueue = false) ∧
    (∀ (cfg : RateLimitConfig) (checks : ℕ → Bool) (fuel k rc : ℕ)
        (ra : Option ℚ) (n : ℕ),
      (acquireWait cfg .critical checks fuel k rc ra).outcome ≠ .rateLimited n) ∧
    (∀ (cfg : RateLimitConfig) (checks : ℕ → Bool) (fuel k rc : ℕ)
        (ra : Option ℚ) (n : ℕ),
      (acquireWait cfg .critical checks fuel k rc ra).outcome = .stillWaiting n →
      (acquireWait cfg .critical checks fuel k rc ra).inQueue = true) ∧
    (∀ (cfg : RateLimitConfig) (checks : ℕ → Bool) (fuel k rc : ℕ) (ra : Option ℚ),
      (∀ i, checks i = false) →
      (acquireWait cfg .critical checks fuel k rc ra).outcome =
        .stillWaiting (rc + fuel)) := by
  refine ⟨?_, ?_, ?_, ?_⟩
  · intro cfg priority checks fuel k ra hpr hc h1 hfuel
    exact acquireWait_nonCritical_exhausts cfg priority checks hpr fuel k 0 ra hc
      (by omega) (by omega)
  · intro cfg checks fuel k rc ra n
    exact acquireWait_critical_no_error cfg checks fuel k rc ra n
  · intro cfg checks fuel k rc ra n
    exact acquireWait_critical_stays_queued cfg checks fuel k rc ra n
  · intro cfg checks fuel k rc ra hc
    exact acquireWait_critical_retries_forever cfg checks fuel k rc ra hc

/-- Witness for `C4_rate_limiter_priorities`: with the default configuration,
a NORMAL caller that is never granted a token fails with a rate-limit error
after 10 retries and is removed from the queue; a CRITICAL caller under the
same starvation is still retrying after 10 iterations. -/
theorem C4_rate_limiter_priorities_witness :
    ((acquireWait {} .normal (fun _ => false) 10 0 0 none).outcome =
        .rateLimited 10 ∧
      (acquireWait {} .normal (fun _ => false) 10 0 0 none).inQueue = false) ∧
    (acquireWait {} .critical (fun _ => false) 10 0 0 none).outcome =
      .stillWaiting 10 :=
  ⟨C4_rate_limiter_priorities.1 {} .normal (fun _ => false) 10 0 none
      (by simp) (fun _ => rfl) (by simp) (by simp),
    C4_rate_limiter_priorities.2.2.2 {} (fun _ => false) 10 0 0 none (fun _ => rfl)⟩

/-! ## Atomic trade sequence (`src/trading/trade_executor.py`)

`execute_atomic_trade` is embedded with an explicit environment giving the
outcome of each connector call (an injected failure is an `.error`), an
explicit trade id (the source draws a uuid), and an effect trace recording
leverage application, order placements and bus publications. -/

namespace TradeExecutor

/-- A `connector.place_order(side, order_type, quantity, price)` call. -/
structure OrderRequest where
  side : OrderSide
  order_type : OrderType
  quantity : ℚ
  price : Option ℚ := none
  deriving DecidableEq, Repr

/-- Observable effect of the executor. -/
inductive Effect
  | setLeverage (pair : String) (leverage : ℕ)
  | placeOrder (req : OrderRequest)
  | fetchBalance
  | logTrade (trade_id : String)
  | emitEvent (event_type : EventType)
  deriving DecidableEq, Repr

/-- Outcome of each connector call the atomic sequence can make (`.error` is
an injected exception; an `OrderInfo` with status FAILED is a rejection). -/
structure ConnectorEnv where
  pair : String
  market_rules : Option MarketRules
  set_leverage_result : Except String Unit
  entry_result : Except String OrderInfo
  sl_result : Except String OrderInfo
  tp_result : Except String OrderInfo
  close_result : Except String OrderInfo
  deriving Repr

/-- The errors `execute_atomic_trade` raises before entering its `try` block;
they propagate to the caller (no side effect has happened). -/
inductive PrecondError
  | valueError (message : String)
  | tradeError (message : String)
  deriving DecidableEq, Repr

/-- The configuration fields the executor reads (`config.leverage`,
`config.capital.risk_reward_ratio`). -/
structure StrategyCfg where
  leverage : ℕ
  risk_reward_ratio : ℚ
  deriving DecidableEq, Repr

/-- `TradeRecord` as built by the executor (timestamp omitted,
`exit_price` none at build time). -/
structure TradeRecordOut where
  id : String
  pair : String
  direction : TradeDirection
  entry_price : ℚ
  stop_loss : ℚ
  take_profit : ℚ
  leverage : ℕ
  quantity : ℚ
  status : TradeStatus
  capital_before : ℚ
  deriving DecidableEq, Repr

/-- `TradeExecutor._verify_sl_status`: the SL order must not be in a terminal
failure state (`status not in (FAILED, CANCELLED)`). -/
def verify_sl_status (sl_order : OrderInfo) : Bool :=
  if sl_order.status = .failed ∨ sl_order.status = .cancelled then false else true

/-- `TradeExecutor._close_position_on_failure`: flatten the position with an
opposite-side market order only if the entry order actually executed (not
FAILED); if that close itself fails, emit `error.critical`; emit
`trade.failed` in every case. -/
def close_position_on_failure (env : ConnectorEnv) (close_side : OrderSide)
    (quantity : ℚ) (entry_order : Option OrderInfo) : List Effect :=
  (match entry_order with
   | some entry =>
     if entry.status ≠ OrderStatus.failed then
       Effect.placeOrder { side := close_side, order_type := .market, quantity := quantity } ::
         (match env.close_result with
          | .ok _ => []
          | .error _ => [Effect.emitEvent .errorCritical])
     else []
   | none => []) ++ [Effect.emitEvent .tradeFailed]

/-- `TradeExecutor.execute_atomic_trade`: validate inputs, apply leverage,
place the market entry, recompute TP/SL from the actual fill price and round
the prices to the tick size, place the protective stop (any exception or a
FAILED/CANCELLED status is SL-failure, triggering
`_close_position_on_failure` and a `none` return), place the take-profit
best-effort, return the `TradeRecord` and emit `trade.opened`. -/
def execute_atomic_trade (config : StrategyCfg) (env : ConnectorEnv)
    (trade_id : String) (pair : String) (direction : TradeDirection)
    (quantity signal_price sl_price capital_before : ℚ) :
    Except PrecondError (Option TradeRecordOut × List Effect) :=
  if quantity ≤ 0 then .error (.valueError "quantity doit etre > 0")
  else if sl_price ≤ 0 then .error (.valueError "sl_price doit etre > 0")
  else if signal_price ≤ 0 then .error (.valueError "signal_price doit etre > 0")
  else if pair ≠ env.pair then .error (.valueError "pair ne correspond pas au connecteur")
  else
    match env.market_rules with
    | none => .error (.tradeError "market_rules non chargees")
    | some market_rules =>
      let side := if direction = .long then OrderSide.buy else OrderSide.sell
      let close_side := if direction = .long then OrderSide.sell else OrderSide.buy
      let effective_leverage := min config.leverage market_rules.max_leverage
      let tr0 : List Effect := [.setLeverage pair effective_leverage]
      match env.set_leverage_result with
      | .error _ =>
        .ok (none, tr0 ++ close_position_on_failure env close_side quantity none)
      | .ok _ =>
        let tr1 := tr0 ++
          [.placeOrder { side := side, order_type := .market, quantity := quantity }]
        match env.entry_result with
        | .error _ =>
          .ok (none, tr1 ++ close_position_on_failure env close_side quantity none)
        | .ok entry_order =>
          if entry_order.status = .failed then
            .ok (none,
              tr1 ++ close_position_on_failure env close_side quantity (some entry_order))
          else
            let real_entry_price := entry_order.price.getD signal_price
            match calculate_tp_sl direction real_entry_price signal_price sl_price
                config.risk_reward_ratio with
            | .error _ =>
              .ok (none,
                tr1 ++ close_position_on_failure env close_side quantity (some entry_order))
            | .ok (raw_tp, raw_sl) =>
              let real_tp_price := OrderValidator.round_price market_rules raw_tp
              let real_sl_price := OrderValidator.round_price market_rules raw_sl
              let slReq : OrderRequest :=
                { side := close_side, order_type := .stopLoss,
                  quantity := quantity, price := some real_sl_price }
              let tr2 := tr1 ++ [.placeOrder slReq]
              match env.sl_result with
              | .error _ =>
                .ok (none,
                  tr2 ++ close_position_on_failure env close_side quantity (some entry_order))
              | .ok sl_order =>
                if ¬ verify_sl_status sl_order then
                  .ok (none,
                    tr2 ++ close_position_on_failure env close_side quantity (some entry_order))
                else
                  let tpReq : OrderRequest :=
                    { side := close_side, order_type := .takeProfit,
                      quantity := quantity, price := some real_tp_price }
                  let tr3 := tr2 ++ [.placeOrder tpReq]
                  let record : TradeRecordOut :=
                    { id := trade_id, pair := pair, direction := direction,
                      entry_price := real_entry_price, stop_loss := real_sl_price,
                      take_profit := real_tp_price, leverage := effective_leverage,
                      quantity := quantity, status := .open,
                      capital_before := capital_before }
                  .ok (some record, tr3 ++ [.emitEvent .tradeOpened])

theorem close_position_on_failure_remediates (env : ConnectorEnv)
    (close_side : OrderSide) (quantity : ℚ) (entry : OrderInfo)
    (h : entry.status ≠ .failed) :
    (Effect.placeOrder { side := close_side, order_type := .market, quantity := quantity } ∈
        close_position_on_failure env close_side quantity (some entry) ∨
      Effect.emitEvent .errorCritical ∈
        close_position_on_failure env close_side quantity (some entry)) ∧
    Effect.emitEvent .tradeFailed ∈
      close_position_on_failure env close_side quantity (some entry) := by
  cases hc : env.close_result <;> simp [close_position_on_failure, h, hc]

end TradeExecutor

/-- **C1 (amended).** For every `execute_atomic_trade` call whose
preconditions pass and whose entry order was placed and did not fail, any
injected failure that aborts the trade sequence — a zero signal stop
distance, an exception from the stop placement, or a FAILED/CANCELLED stop
status (i.e. any post-entry failure other than the best-effort take-profit
placement, whose failure deliberately leaves the protected trade open) —
makes the call return `none` and either submit an opposite-side market close
order to the connector or emit `error.critical` — never neither — and emit
`trade.failed` in all of these failure paths. -/
theorem C1_post_entry_failure_always_remediated :
    ∀ (config : TradeExecutor.StrategyCfg) (env : TradeExecutor.ConnectorEnv)
      (trade_id pair : String) (direction : TradeDirection)
      (quantity signal_price sl_price capital_before : ℚ) (entry : OrderInfo)
      (rules : MarketRules),
      0 < quantity → 0 < sl_price → 0 < signal_price → pair = env.pair →
      env.market_rules = some rules →
      env.set_leverage_result = .ok () →
      env.entry_result = .ok entry → entry.status ≠ .failed →
      (signal_price = sl_price ∨
        (∃ e, env.sl_result = .error e) ∨
        (∃ o, env.sl_result = .ok o ∧ (o.status = .failed ∨ o.status = .cancelled))) →
      ∃ tr, TradeExecutor.execute_atomic_trade config env trade_id pair direction
          quantity signal_price sl_price capital_before = .ok (none, tr) ∧
        (TradeExecutor.Effect.placeOrder
            { side := if direction = .long then OrderSide.sell else OrderSide.buy,
              order_type := .market, quantity := quantity } ∈ tr ∨
          TradeExecutor.Effect.emitEvent .errorCritical ∈ tr) ∧
        TradeExecutor.Effect.emitEvent .tradeFailed ∈ tr := by
  intro config env trade_id pair direction quantity signal_price sl_price
    capital_before entry rules hq hsl hsig hpair hrules hlev hentry hstat hfail
  have hrem := TradeExecutor.close_position_on_failure_remediates env
    (if direction = .long then OrderSide.sell else OrderSide.buy) quantity entry hstat
  rcases hfail with hss | ⟨e, he⟩ | ⟨o, ho, hbad⟩
  · have hcalc : TradeExecutor.calculate_tp_sl direction (entry.price.getD signal_price)
        signal_price sl_price config.risk_reward_ratio =
        .error "Distance SL invalide : signal_price == sl_price" := by
      simp [TradeExecutor.calculate_tp_sl, hss]
    refine ⟨_, by simp [TradeExecutor.execute_atomic_trade, not_le.mpr hq, not_le.mpr hsl,
      not_le.mpr hsig, hpair, hrules, hlev, hentry, hstat, hcalc]; try rfl, ?_, ?_⟩
    · rcases hrem.1 with h1 | h1
      · exact Or.inl (by simp [h1])
      · exact Or.inr (by simp [h1])
    · simp [hrem.2]
  · cases hcalc : TradeExecutor.calculate_tp_sl direction (entry.price.getD signal_price)
        signal_price sl_price config.risk_reward_ratio with
    | error msg =>
      refine ⟨_, by simp [TradeExecutor.execute_atomic_trade, not_le.mpr hq, not_le.mpr hsl,
        not_le.mpr hsig, hpair, hrules, hlev, hentry, hstat, hcalc]; try rfl, ?_, ?_⟩
      · rcases hrem.1 with h1 | h1
        · exact Or.inl (by simp [h1])
        · exact Or.inr (by simp [h1])
      · simp [hrem.2]
    | ok pr =>
      obtain ⟨raw_tp, raw_sl⟩ := pr
      refine ⟨_, by simp [TradeExecutor.execute_atomic_trade, not_le.mpr hq, not_le.mpr hsl,
        not_le.mpr hsig, hpair, hrules, hlev, hentry, hstat, hcalc, he]; try rfl, ?_, ?_⟩
      · rcases hrem.1 with h1 | h1
        · exact Or.inl (by simp [h1])
        · exact Or.inr (by simp [h1])
      · simp [hrem.2]
  · have hver : TradeExecutor.verify_sl_status o = false := by
      rcases hbad with hb | hb <;> simp [TradeExecutor.verify_sl_status, hb]
    cases hcalc : TradeExecutor.calculate_tp_sl direction (entry.price.getD signal_price)
        signal_price sl_price config.risk_reward_ratio with
    | error msg =>
      refine ⟨_, by simp [TradeExecutor.execute_atomic_trade, not_le.mpr hq, not_le.mpr hsl,
        not_le.mpr hsig, hpair, hrules, hlev, hentry, hstat, hcalc]; try rfl, ?_, ?_⟩
      · rcases hrem.1 with h1 | h1
        · exact Or.inl (by simp [h1])
        · exact Or.inr (by simp [h1])
      · simp [hrem.2]
    | ok pr =>
      obtain ⟨raw_tp, raw_sl⟩ := pr
      refine ⟨_, by simp [TradeExecutor.execute_atomic_trade, not_le.mpr hq, not_le.mpr hsl,
        not_le.mpr hsig, hpair, hrules, hlev, hentry, hstat, hcalc, ho, hver]; try rfl, ?_, ?_⟩
      · rcases hrem.1 with h1 | h1
        · exact Or.inl (by simp [h1])
        · exact Or.inr (by simp [h1])
      · simp [hrem.2]

/-- A FILLED market entry at 50200 (concrete value for witnesses). -/
def entryOrderOk : OrderInfo :=
  { id := "e1", pair := "BTC/USDT", side := .buy, order_type := .market,
    price := some 50200, quantity := 1, status := .filled }

/-- A successfully submitted market close order (concrete value). -/
def closeOrderOk : OrderInfo :=
  { id := "c1", pair := "BTC/USDT", side := .sell, order_type := .market,
    price := none, quantity := 1, status := .filled }

/-- Environment for the C1 witness: the stop placement raises. -/
def c1SlFailEnv : TradeExecutor.ConnectorEnv :=
  { pair := "BTC/USDT", market_rules := some fixtureRules,
    set_leverage_result := .ok (), entry_result := .ok entryOrderOk,
    sl_result := .error "NetworkError", tp_result := .error "not reached",
    close_result := .ok closeOrderOk }

/-- Witness for `C1_post_entry_failure_always_remediated`: a LONG trade whose
stop placement raises is rolled back — `none` returned, close submitted or
critical emitted, `trade.failed` emitted. -/
theorem C1_post_entry_failure_always_remediated_witness :
    ∃ tr, TradeExecutor.execute_atomic_trade { leverage := 5, risk_reward_ratio := 2 }
        c1SlFailEnv "t1" "BTC/USDT" .long 1 50000 49000 1000 = .ok (none, tr) ∧
      (TradeExecutor.Effect.placeOrder
          { side := OrderSide.sell, order_type := .market, quantity := 1 } ∈ tr ∨
        TradeExecutor.Effect.emitEvent .errorCritical ∈ tr) ∧
      TradeExecutor.Effect.emitEvent .tradeFailed ∈ tr :=
  C1_post_entry_failure_always_remediated { leverage := 5, risk_reward_ratio := 2 }
    c1SlFailEnv "t1" "BTC/USDT" .long 1 50000 49000 1000 entryOrderOk fixtureRules
    (by simp) (by simp) (by simp) rfl rfl rfl rfl (by decide)
    (Or.inr (Or.inl ⟨"NetworkError", rfl⟩))

/-- A PENDING protective stop order (concrete value). -/
def slOrderPending : OrderInfo :=
  { id := "s1", pair := "BTC/USDT", side := .sell, order_type := .stopLoss,
    price := some 49200, quantity := 1, status := .pending }

/-- Environment for the C1 counterexample: entry and stop succeed, the
take-profit placement — strictly after entry — raises. -/
def c1TpFailEnv : TradeExecutor.ConnectorEnv :=
  { pair := "BTC/USDT", market_rules := some fixtureRules,
    set_leverage_result := .ok (), entry_result := .ok entryOrderOk,
    sl_result := .ok slOrderPending,
    tp_result := .error "ExchangeError: TP rejected",
    close_result := .ok closeOrderOk }

/-- The trade record the counterexample run returns. -/
def c1TpFailRecord : TradeExecutor.TradeRecordOut :=
  { id := "t1", pair := "BTC/USDT", direction := .long, entry_price := 50200,
    stop_loss := 49200, take_profit := 52200, leverage := 5, quantity := 1,
    status := .open, capital_before := 1000 }

/-- The effect trace of the counterexample run: no close order, no
`error.critical`, no `trade.failed`. -/
def c1TpFailTrace : List TradeExecutor.Effect :=
  [.setLeverage "BTC/USDT" 5,
   .placeOrder { side := .buy, order_type := .market, quantity := 1 },
   .placeOrder { side := .sell, order_type := .stopLoss, quantity := 1, price := some 49200 },
   .placeOrder { side := .sell, order_type := .takeProfit, quantity := 1, price := some 52200 },
   .emitEvent .tradeOpened]

/-- **C1 counterexample.** An injected failure strictly after the entry order
(the best-effort take-profit placement raises, `c1TpFailEnv.tp_result` is an
error) does NOT make the call return `none`: the call returns a `TradeRecord`
and emits no `trade.failed` — the claim as stated is false on the code. -/
theorem C1_counterexample_tp_failure_returns_record :
    TradeExecutor.execute_atomic_trade { leverage := 5, risk_reward_ratio := 2 }
        c1TpFailEnv "t1" "BTC/USDT" .long 1 50000 49000 1000 =
      .ok (some c1TpFailRecord, c1TpFailTrace) ∧
    c1TpFailEnv.tp_result = .error "ExchangeError: TP rejected" ∧
    TradeExecutor.Effect.emitEvent .tradeFailed ∉ c1TpFailTrace := by
  refine ⟨?_, rfl, by decide⟩
  simp only [TradeExecutor.execute_atomic_trade, c1TpFailEnv, entryOrderOk,
    slOrderPending, closeOrderOk, fixtureRules]
  norm_num [TradeExecutor.calculate_tp_sl, TradeExecutor.verify_sl_status,
    OrderValidator.round_price, roundHalfUpInt, c1TpFailRecord, c1TpFailTrace]
  rfl

/-- The stop-loss placement requests of a trace. -/
def stopLossRequests : List TradeExecutor.Effect → List TradeExecutor.OrderRequest
  | [] => []
  | .placeOrder r :: tr =>
    if r.order_type = .stopLoss then r :: stopLossRequests tr else stopLossRequests tr
  | _ :: tr => stopLossRequests tr

theorem stopLossRequests_close_position (env : TradeExecutor.ConnectorEnv)
    (close_side : OrderSide) (quantity : ℚ) (entry_order : Option OrderInfo) :
    stopLossRequests (TradeExecutor.close_position_on_failure env close_side quantity
      entry_order) = [] := by
  cases entry_order with
  | none => cases env.close_result <;>
      simp [stopLossRequests, TradeExecutor.close_position_on_failure]
  | some entry =>
    by_cases h : entry.status ≠ OrderStatus.failed <;> cases hc : env.close_result <;>
      simp [stopLossRequests, TradeExecutor.close_position_on_failure, h, hc]

/-- **C8 (amended).** In step 3 of the atomic sequence, before the protective
stop is placed, the stop price is rounded to the market tick size with
round-half-up (`OrderValidator.round_price`); the quantity, however, is NOT
rounded: the one stop-loss placement of the run carries exactly the input
quantity unchanged (`OrderValidator.round_quantity` — round-down to the step
size — exists but is never invoked in this sequence). -/
theorem C8_sl_price_rounded_quantity_passed_through :
    ∀ (config : TradeExecutor.StrategyCfg) (env : TradeExecutor.ConnectorEnv)
      (trade_id pair : String) (direction : TradeDirection)
      (quantity signal_price sl_price capital_before : ℚ) (entry : OrderInfo)
      (rules : MarketRules) (raw_tp raw_sl : ℚ),
      0 < quantity → 0 < sl_price → 0 < signal_price → pair = env.pair →
      env.market_rules = some rules → env.set_leverage_result = .ok () →
      env.entry_result = .ok entry → entry.status ≠ .failed →
      TradeExecutor.calculate_tp_sl direction (entry.price.getD signal_price)
          signal_price sl_price config.risk_reward_ratio = .ok (raw_tp, raw_sl) →
      (TradeExecutor.execute_atomic_trade config env trade_id pair direction
          quantity signal_price sl_price capital_before).toOption.map
            (fun p => stopLossRequests p.2) =
        some [{ side := if direction = .long then OrderSide.sell else OrderSide.buy,
                order_type := .stopLoss, quantity := quantity,
                price := some (OrderValidator.round_price rules raw_sl) }] := by
  intro config env trade_id pair direction quantity signal_price sl_price
    capital_before entry rules raw_tp raw_sl hq hsl hsig hpair hrules hlev hentry
    hstat hcalc
  cases hslr : env.sl_result with
  | error e =>
    simp [TradeExecutor.execute_atomic_trade, not_le.mpr hq, not_le.mpr hsl,
      not_le.mpr hsig, hpair, hrules, hlev, hentry, hstat, hcalc, hslr,
      Except.toOption, stopLossRequests, stopLossRequests_close_position]
  | ok sl_order =>
    by_cases hver : TradeExecutor.verify_sl_status sl_order
    · simp [TradeExecutor.execute_atomic_trade, not_le.mpr hq, not_le.mpr hsl,
        not_le.mpr hsig, hpair, hrules, hlev, hentry, hstat, hcalc, hslr, hver,
        Except.toOption, stopLossRequests]
    · simp [TradeExecutor.execute_atomic_trade, not_le.mpr hq, not_le.mpr hsl,
        not_le.mpr hsig, hpair, hrules, hlev, hentry, hstat, hcalc, hslr, hver,
        Except.toOption, stopLossRequests, stopLossRequests_close_position]

/-- Witness for `C8_sl_price_rounded_quantity_passed_through`: concrete run
with entry fill 50200; the single stop-loss request carries the rounded stop
price and the unrounded input quantity 0.0015. -/
theorem C8_sl_price_rounded_quantity_passed_through_witness :
    (TradeExecutor.execute_atomic_trade { leverage := 5, risk_reward_ratio := 2 }
        c1SlFailEnv "t1" "BTC/USDT" .long (3/2000) 50000 49000 1000).toOption.map
          (fun p => stopLossRequests p.2) =
      some [{ side := if TradeDirection.long = .long then OrderSide.sell else OrderSide.buy,
              order_type := .stopLoss, quantity := 3/2000,
              price := some (OrderValidator.round_price fixtureRules
                (50200 - |(50000 : ℚ) - 49000|)) }] :=
  C8_sl_price_rounded_quantity_passed_through { leverage := 5, risk_reward_ratio := 2 }
    c1SlFailEnv "t1" "BTC/USDT" .long (3/2000) 50000 49000 1000 entryOrderOk
    fixtureRules (50200 + |(50000 : ℚ) - 49000| * 2) (50200 - |(50000 : ℚ) - 49000|)
    (by simp) (by simp) (by simp) rfl rfl rfl rfl (by decide)
    (by simp [TradeExecutor.calculate_tp_sl, sub_eq_zero, entryOrderOk])

/-- Entry order for the C8 counterexample: fill 50200, quantity 0.0015 (not a
multiple of the 0.001 step size). -/
def c8Entry : OrderInfo :=
  { id := "e1", pair := "BTC/USDT", side := .buy, order_type := .market,
    price := some 50200, quantity := 3/2000, status := .filled }

/-- Environment for the C8 counterexample: every call succeeds. -/
def c8Env : TradeExecutor.ConnectorEnv :=
  { pair := "BTC/USDT", market_rules := some fixtureRules,
    set_leverage_result := .ok (), entry_result := .ok c8Entry,
    sl_result := .ok slOrderPending, tp_result := .ok slOrderPending,
    close_result := .ok closeOrderOk }

/-- The record returned by the C8 counterexample run. -/
def c8Record : TradeExecutor.TradeRecordOut :=
  { id := "t1", pair := "BTC/USDT", direction := .long, entry_price := 50200,
    stop_loss := 49200, take_profit := 52200, leverage := 5, quantity := 3/2000,
    status := .open, capital_before := 1000 }

/-- The trace of the C8 counterexample run: the stop-loss placement carries
quantity 0.0015, not 0.001. -/
def c8Trace : List TradeExecutor.Effect :=
  [.setLeverage "BTC/USDT" 5,
   .placeOrder { side := .buy, order_type := .market, quantity := 3/2000 },
   .placeOrder { side := .sell, order_type := .stopLoss, quantity := 3/2000, price := some 49200 },
   .placeOrder { side := .sell, order_type := .takeProfit, quantity := 3/2000, price := some 52200 },
   .emitEvent .tradeOpened]

/-- **C8 counterexample.** With input quantity 0.0015 and step size 0.001, the
quantity passed to the stop-loss placement is 0.0015 — the raw input — while
rounding it down to the step size (`OrderValidator.round_quantity`) gives
0.001 ≠ 0.0015: the claim that the stop-loss quantity is the input rounded
down to the step size is false on the code. -/
theorem C8_counterexample_quantity_not_rounded :
    TradeExecutor.execute_atomic_trade { leverage := 5, risk_reward_ratio := 2 }
        c8Env "t1" "BTC/USDT" .long (3/2000) 50000 49000 1000 =
      .ok (some c8Record, c8Trace) ∧
    stopLossRequests c8Trace =
      [{ side := .sell, order_type := .stopLoss, quantity := 3/2000, price := some 49200 }] ∧
    OrderValidator.round_quantity fixtureRules (3/2000) = 1/1000 ∧
    (3/2000 : ℚ) ≠ 1/1000 := by
  refine ⟨?_, by simp [stopLossRequests, c8Trace], ?_, by norm_num⟩
  · simp only [TradeExecutor.execute_atomic_trade, c8Env, c8Entry,
      slOrderPending, closeOrderOk, fixtureRules]
    norm_num [TradeExecutor.calculate_tp_sl, TradeExecutor.verify_sl_status,
      OrderValidator.round_price, roundHalfUpInt, c8Record, c8Trace]
    rfl
  · norm_num [OrderValidator.round_quantity, roundDownInt, fixtureRules]

/-! ## Trade-close handling (`TradeExecutor._handle_trade_closed`) -/

/-- `TradeResult` as built by `_handle_trade_closed` (timestamp and wall-clock
duration omitted). -/
structure TradeResultOut where
  trade_id : String
  pair : String
  direction : TradeDirection
  entry_price : ℚ
  exit_price : ℚ
  stop_loss : ℚ
  take_profit : ℚ
  leverage : ℕ
  pnl : ℚ
  capital_before : ℚ
  capital_after : ℚ
  deriving DecidableEq, Repr

/-- `TradeExecutor._handle_trade_closed`: pop the trade from `_open_trades`
(unknown id → warning and return); fetch the balance (an exception is caught
and logged); pnl is the balance delta against the pre-trade capital; the exit
price is the event's, else the stop for `trade.sl_hit`, else the target;
build the `TradeResult`, store it in `_closed_trades`, publish
`trade.closed`.  Returns (remaining open trades, stored closed trades,
effects).  The `Effect` type has a `logTrade` constructor, but this function
never produces it: the source `TradeExecutor` holds no `TradeLogger` and
never calls `log_trade` — although the repository's own tests
(`tests/trading/test_trade_executor.py`, Story 4.4 / AC5) construct
`TradeExecutor(..., trade_logger=...)` and assert `log_trade` is invoked with
the built `TradeResult` before the `trade.closed` emission. -/
def handle_trade_closed (open_trades : List (String × TradeExecutor.TradeRecordOut))
    (balance_free : Except String ℚ) (event_type : EventType) (trade_id : String)
    (event_exit_price : Option ℚ) :
    List (String × TradeExecutor.TradeRecordOut) × List (String × TradeResultOut) ×
      List TradeExecutor.Effect :=
  match open_trades.find? (fun p => p.1 = trade_id) with
  | none => (open_trades, [], [])
  | some p =>
    let trade_record := p.2
    let remaining := open_trades.filter fun q => ¬ q.1 = trade_id
    match balance_free with
    | .error _ => (remaining, [], [.fetchBalance])
    | .ok capital_after =>
      let pnl := capital_after - trade_record.capital_before
      let exit_price :=
        match event_exit_price with
        | some px => px
        | none =>
          if event_type = .tradeSlHit then trade_record.stop_loss
          else trade_record.take_profit
      let result : TradeResultOut :=
        { trade_id := trade_id, pair := trade_record.pair,
          direction := trade_record.direction,
          entry_price := trade_record.entry_price, exit_price := exit_price,
          stop_loss := trade_record.stop_loss,
          take_profit := trade_record.take_profit,
          leverage := trade_record.leverage, pnl := pnl,
          capital_before := trade_record.capital_before,
          capital_after := capital_after }
      (remaining, [(trade_id, result)], [.fetchBalance, .emitEvent .tradeClosed])

/-- Number of trade-result logger invocations in a trace. -/
def logTradeCount : List TradeExecutor.Effect → ℕ
  | [] => 0
  | .logTrade _ :: tr => logTradeCount tr + 1
  | _ :: tr => logTradeCount tr

/-- The open trade of the repository's own logger test (Story 4.4):
capital-before 1000, SL 49000. -/
def c9Record : TradeExecutor.TradeRecordOut :=
  { id := "trade-log-check", pair := "BTC/USDT", direction := .long,
    entry_price := 50000, stop_loss := 49000, take_profit := 52000,
    leverage := 5, quantity := 1/100, status := .open, capital_before := 1000 }

/-- The `TradeResult` that close builds (balance 1030 → pnl 30). -/
def c9Result : TradeResultOut :=
  { trade_id := "trade-log-check", pair := "BTC/USDT", direction := .long,
    entry_price := 50000, exit_price := 49000, stop_loss := 49000,
    take_profit := 52000, leverage := 5, pnl := 30, capital_before := 1000,
    capital_after := 1030 }

/-- **C9.** At the exact input of the repository's own test
(`test_handle_trade_closed_calls_log_trade`): the close handler builds the
`TradeResult` and publishes `trade.closed`, but invokes no trade-result
logger at any point — the effect trace contains zero `logTrade` effects,
contradicting the claim (and the repo's tests) that a logger is invoked with
the built result before the `trade.closed` publication. -/
theorem C9_no_trade_logger_invoked_before_trade_closed :
    handle_trade_closed [("trade-log-check", c9Record)] (.ok 1030) .tradeSlHit
        "trade-log-check" none =
      ([], [("trade-log-check", c9Result)],
        [.fetchBalance, .emitEvent .tradeClosed]) ∧
    logTradeCount [.fetchBalance, .emitEvent .tradeClosed] = 0 := by
  constructor
  · norm_num [handle_trade_closed, c9Record, c9Result, List.find?, List.filter]
  · simp [logTradeCount]

/-! ## Reconnection (`CcxtConnector._reconnect`, `src/exchange/ccxt_connector.py`) -/

/-- Module constant `MAX_RECONNECT_ATTEMPTS`. -/
def MAX_RECONNECT_ATTEMPTS : ℕ := 5

/-- Module constant `INITIAL_RECONNECT_DELAY` (seconds). -/
def INITIAL_RECONNECT_DELAY : ℚ := 2

/-- Module constant `MAX_RECONNECT_DELAY` (seconds). -/
def MAX_RECONNECT_DELAY : ℚ := 30

/-- Outcome of the `load_markets()` call of one reconnection attempt. -/
inductive AttemptOutcome
  | success
  | networkError (message : String)
  | authError (message : String)
  | baseError (message : String)
  deriving DecidableEq, Repr

/-- Observable effect of the reconnection routine. -/
inductive ReconnectEffect
  | sleep (delay : ℚ)
  | loadMarkets
  | emitEvent (event_type : EventType)
  | verifyPositions
  deriving DecidableEq, Repr

/-- How `_reconnect` ends: return after a successful attempt, raise
immediately on an authentication error, or raise after exhausting the
attempts (the raised error is `ExchangeConnectionError` in both cases). -/
inductive ReconnectOutcome
  | reconnected (attempt : ℕ)
  | authFailed
  | exhausted
  deriving DecidableEq, Repr

/-- The attempt loop of `_reconnect` over the remaining attempt indices:
sleep `min(INITIAL_RECONNECT_DELAY * 2^attempt, MAX_RECONNECT_DELAY)`, reload
markets; success emits `exchange.reconnected` and runs the position audit; an
authentication error emits `error.critical` and raises immediately (never
retried); network and other exchange errors move to the next attempt; once
attempts are exhausted, emit `error.critical` and raise. -/
def reconnect_from (result : ℕ → AttemptOutcome) :
    List ℕ → List ReconnectEffect × ReconnectOutcome
  | [] => ([.emitEvent .errorCritical], .exhausted)
  | attempt :: rest =>
    let delay := min (INITIAL_RECONNECT_DELAY * 2 ^ attempt) MAX_RECONNECT_DELAY
    match result attempt with
    | .success =>
      ([.sleep delay, .loadMarkets, .emitEvent .exchangeReconnected, .verifyPositions],
        .reconnected attempt)
    | .authError _ =>
      ([.sleep delay, .loadMarkets, .emitEvent .errorCritical], .authFailed)
    | .networkError _ =>
      let (tr, out) := reconnect_from result rest
      (.sleep delay :: .loadMarkets :: tr, out)
    | .baseError _ =>
      let (tr, out) := reconnect_from result rest
      (.sleep delay :: .loadMarkets :: tr, out)

/-- `CcxtConnector._reconnect`: `for attempt in range(MAX_RECONNECT_ATTEMPTS)`. -/
def reconnect (result : ℕ → AttemptOutcome) :
    List ReconnectEffect × ReconnectOutcome :=
  reconnect_from result (List.range MAX_RECONNECT_ATTEMPTS)

/-- The slept delays of a reconnect trace, in order. -/
def sleepsOf (tr : List ReconnectEffect) : List ℚ :=
  tr.filterMap fun e =>
    match e with
    | .sleep d => some d
    | _ => none

theorem range_five : List.range 5 = [0, 1, 2, 3, 4] := by decide

/-- **C7.** When all five reconnection attempts fail with transient network
errors, the routine sleeps exactly 2 s, 4 s, 8 s, 16 s, 30 s before attempts
1–5, then raises a connection error (`exhausted`) and emits `error.critical`;
an authentication failure during any attempt `j` is never retried: the
routine stops after the `j+1`-th sleep, emits `error.critical` and raises
immediately (`authFailed`). -/
theorem C7_reconnect_backoff_then_raise_and_auth_never_retried :
    (∀ result : ℕ → AttemptOutcome,
      (∀ i, i < 5 → ∃ m, result i = .networkError m) →
      (reconnect result).2 = .exhausted ∧
        sleepsOf (reconnect result).1 = [2, 4, 8, 16, 30] ∧
        ReconnectEffect.emitEvent .errorCritical ∈ (reconnect result).1) ∧
    (∀ (result : ℕ → AttemptOutcome) (j : ℕ), j < 5 →
      (∀ i, i < j → ∃ m, result i = .networkError m) →
      (∃ m, result j = .authError m) →
      (reconnect result).2 = .authFailed ∧
        sleepsOf (reconnect result).1 = List.take (j + 1) [2, 4, 8, 16, 30] ∧
        ReconnectEffect.emitEvent .errorCritical ∈ (reconnect result).1) := by
  constructor
  · intro result h
    obtain ⟨m0, h0⟩ := h 0 (by norm_num)
    obtain ⟨m1, h1⟩ := h 1 (by norm_num)
    obtain ⟨m2, h2⟩ := h 2 (by norm_num)
    obtain ⟨m3, h3⟩ := h 3 (by norm_num)
    obtain ⟨m4, h4⟩ := h 4 (by norm_num)
    refine ⟨?_, ?_, ?_⟩ <;>
      norm_num [reconnect, MAX_RECONNECT_ATTEMPTS, range_five, reconnect_from,
        h0, h1, h2, h3, h4, sleepsOf, List.filterMap_cons, INITIAL_RECONNECT_DELAY, MAX_RECONNECT_DELAY]
  · intro result j hj hnet hauth
    obtain ⟨ma, ha⟩ := hauth
    interval_cases j
    · refine ⟨?_, ?_, ?_⟩ <;>
        norm_num [reconnect, MAX_RECONNECT_ATTEMPTS, range_five, reconnect_from,
          ha, sleepsOf, List.filterMap_cons, INITIAL_RECONNECT_DELAY, MAX_RECONNECT_DELAY]
    · obtain ⟨m0, h0⟩ := hnet 0 (by norm_num)
      refine ⟨?_, ?_, ?_⟩ <;>
        norm_num [reconnect, MAX_RECONNECT_ATTEMPTS, range_five, reconnect_from,
          h0, ha, sleepsOf, List.filterMap_cons, INITIAL_RECONNECT_DELAY, MAX_RECONNECT_DELAY]
    · obtain ⟨m0, h0⟩ := hnet 0 (by norm_num)
      obtain ⟨m1, h1⟩ := hnet 1 (by norm_num)
      refine ⟨?_, ?_, ?_⟩ <;>
        norm_num [reconnect, MAX_RECONNECT_ATTEMPTS, range_five, reconnect_from,
          h0, h1, ha, sleepsOf, List.filterMap_cons, INITIAL_RECONNECT_DELAY, MAX_RECONNECT_DELAY]
    · obtain ⟨m0, h0⟩ := hnet 0 (by norm_num)
      obtain ⟨m1, h1⟩ := hnet 1 (by norm_num)
      obtain ⟨m2, h2⟩ := hnet 2 (by norm_num)
      refine ⟨?_, ?_, ?_⟩ <;>
        norm_num [reconnect, MAX_RECONNECT_ATTEMPTS, range_five, reconnect_from,
          h0, h1, h2, ha, sleepsOf, List.filterMap_cons, INITIAL_RECONNECT_DELAY, MAX_RECONNECT_DELAY]
    · obtain ⟨m0, h0⟩ := hnet 0 (by norm_num)
      obtain ⟨m1, h1⟩ := hnet 1 (by norm_num)
      obtain ⟨m2, h2⟩ := hnet 2 (by norm_num)
      obtain ⟨m3, h3⟩ := hnet 3 (by norm_num)
      refine ⟨?_, ?_, ?_⟩ <;>
        norm_num [reconnect, MAX_RECONNECT_ATTEMPTS, range_five, reconnect_from,
          h0, h1, h2, h3, ha, sleepsOf, List.filterMap_cons, INITIAL_RECONNECT_DELAY, MAX_RECONNECT_DELAY]

/-- Witness for `C7_reconnect_backoff_then_raise_and_auth_never_retried`:
every attempt times out → delays 2,4,8,16,30 then `exhausted` plus a
CRITICAL event. -/
theorem C7_reconnect_backoff_then_raise_and_auth_never_retried_witness :
    (reconnect fun _ => .networkError "timeout").2 = .exhausted ∧
      sleepsOf (reconnect fun _ => .networkError "timeout").1 = [2, 4, 8, 16, 30] ∧
      ReconnectEffect.emitEvent .errorCritical ∈
        (reconnect fun _ => .networkError "timeout").1 :=
  C7_reconnect_backoff_then_raise_and_auth_never_retried.1
    (fun _ => .networkError "timeout") (fun _ _ => ⟨"timeout", rfl⟩)

/-! ## Crash recovery (`TradingApp.run_crash_recovery`, `src/core/app.py`)

Modelled with the event bus wired (as it is in `run_live`; the source guards
the CRITICAL emission with `if self.event_bus is not None`).  The 55 s
`asyncio.timeout` watchdog is wall-clock time and not modelled; the theorems
concern the non-timeout path. -/

/-- An exchange position as the recovery reads it (`contracts`, `side`). -/
structure Position where
  contracts : ℚ
  side : String
  deriving DecidableEq, Repr

/-- An open order as the recovery reads it (`type`, `stopPrice`,
`triggerPrice`). -/
structure OpenOrder where
  otype : String
  stopPrice : Option ℚ := none
  triggerPrice : Option ℚ := none
  deriving DecidableEq, Repr

/-- Observable effect of the recovery routine. -/
inductive RecoveryEffect
  | fetchPositions
  | fetchOpenOrders
  | placeOrder (side : OrderSide) (order_type : OrderType) (quantity : ℚ)
  | emitEvent (event_type : EventType)
  | saveState
  deriving DecidableEq, Repr

/-- The `protection_types` set of `run_crash_recovery`. -/
def protection_types : List String :=
  ["stop_market", "stop", "stop_loss", "take_profit_market", "take_profit"]

/-- Is this order protective (SL/TP)? `type.lower()` in the set, or a stop or
trigger price present. -/
def is_protection_order (o : OpenOrder) : Bool :=
  protection_types.contains o.otype.toLower || o.stopPrice.isSome || o.triggerPrice.isSome

/-- The single open position: first with `contracts > 0` (single-pair system,
all active trade ids map to it). -/
def first_open_position (positions : List Position) : Option Position :=
  positions.find? fun p => 0 < p.contracts

/-- The per-trade-id loop of `run_crash_recovery`: position absent → drop the
id; protected → keep it; unprotected → submit one opposite-side market close
for the position size, drop the id, emit `error.critical`, and treat the
position as closed for the remaining ids (`open_position = None`). -/
def recover_trades (has_protection : Bool) :
    List String → Option Position → List String × Option Position × List RecoveryEffect
  | [], pos => ([], pos, [])
  | _ :: rest, none =>
    let (kept, pos2, eff) := recover_trades has_protection rest none
    (kept, pos2, eff)
  | tid :: rest, some pos =>
    if has_protection then
      let (kept, pos2, eff) := recover_trades has_protection rest (some pos)
      (tid :: kept, pos2, eff)
    else
      let close_side := if pos.side.toLower = "long" then OrderSide.sell else OrderSide.buy
      let (kept, pos2, eff) := recover_trades has_protection rest none
      (kept, pos2,
        RecoveryEffect.placeOrder close_side .market pos.contracts ::
          RecoveryEffect.emitEvent .errorCritical :: eff)

/-- `TradingApp.run_crash_recovery`: clean start when no state or no active
trades; otherwise fetch positions and open orders once, classify protection,
resolve the shared open position once, run the per-id loop, persist the
corrected state.  Returns the corrected active-trade list (`none` = clean
start) and the effect trace. -/
def run_crash_recovery (state : Option (List String)) (positions : List Position)
    (open_orders : List OpenOrder) : Option (List String) × List RecoveryEffect :=
  match state with
  | none => (none, [])
  | some active_trades =>
    if active_trades.isEmpty then (none, [])
    else
      let protection_orders := open_orders.filter is_protection_order
      let has_protection := ¬ protection_orders.isEmpty
      let open_position := first_open_position positions
      let (kept, _, eff) := recover_trades has_protection active_trades open_position
      (some kept,
        RecoveryEffect.fetchPositions :: RecoveryEffect.fetchOpenOrders ::
          (eff ++ [RecoveryEffect.saveState]))

/-- Number of market orders submitted in a recovery trace. -/
def marketCloseCount : List RecoveryEffect → ℕ
  | [] => 0
  | .placeOrder _ .market _ :: tr => marketCloseCount tr + 1
  | _ :: tr => marketCloseCount tr

theorem recover_trades_absent (has_protection : Bool) (ids : List String) :
    recover_trades has_protection ids none = ([], none, []) := by
  induction ids with
  | nil => rfl
  | cons tid rest ih => simp [recover_trades, ih]

/-- **C3.** When the persisted state lists N ≥ 1 active trade ids and the
exchange shows one open position with no protective order, recovery submits
exactly one market close order (not N), removes all N ids, and emits
`error.critical`; and when the position is absent on the exchange, every id
is dropped and no order at all is submitted. -/
theorem C3_one_close_order_for_shared_unprotected_position :
    (∀ (ids : List String) (positions : List Position) (open_orders : List OpenOrder)
        (p : Position),
      ids ≠ [] →
      first_open_position positions = some p →
      open_orders.filter is_protection_order = [] →
      (run_crash_recovery (some ids) positions open_orders).1 = some [] ∧
        marketCloseCount (run_crash_recovery (some ids) positions open_orders).2 = 1 ∧
        RecoveryEffect.emitEvent .errorCritical ∈
          (run_crash_recovery (some ids) positions open_orders).2) ∧
    (∀ (ids : List String) (positions : List Position) (open_orders : List OpenOrder),
      ids ≠ [] →
      first_open_position positions = none →
      (run_crash_recovery (some ids) positions open_orders).1 = some [] ∧
        marketCloseCount (run_crash_recovery (some ids) positions open_orders).2 = 0) := by
  constructor
  · intro ids positions open_orders p hne hpos hfilter
    cases ids with
    | nil => exact absurd rfl hne
    | cons tid rest =>
      refine ⟨?_, ?_, ?_⟩ <;>
        simp [run_crash_recovery, hpos, hfilter, recover_trades,
          recover_trades_absent, marketCloseCount]
  · intro ids positions open_orders hne hpos
    cases ids with
    | nil => exact absurd rfl hne
    | cons tid rest =>
      refine ⟨?_, ?_⟩ <;>
        simp [run_crash_recovery, hpos, recover_trades, recover_trades_absent,
          marketCloseCount]

/-- Witness for `C3_one_close_order_for_shared_unprotected_position`: two
active ids, one unprotected long position of 1 contract, no open orders —
exactly one market close, both ids dropped, CRITICAL emitted. -/
theorem C3_one_close_order_for_shared_unprotected_position_witness :
    (run_crash_recovery (some ["t1", "t2"]) [{ contracts := 1, side := "long" }] []).1 =
        some [] ∧
      marketCloseCount
          (run_crash_recovery (some ["t1", "t2"])
            [{ contracts := 1, side := "long" }] []).2 = 1 ∧
      RecoveryEffect.emitEvent .errorCritical ∈
        (run_crash_recovery (some ["t1", "t2"])
          [{ contracts := 1, side := "long" }] []).2 :=
  C3_one_close_order_for_shared_unprotected_position.1 ["t1", "t2"]
    [{ contracts := 1, side := "long" }] [] { contracts := 1, side := "long" }
    (by simp) (by simp [first_open_position]) rfl

end TradingApp
